import Mathlib

/-!
Shallow embedding of the `uhttp_response_header` crate (src/lib.rs).

A byte sink (the Rust `W: Write` collaborator) is modelled as a pair of
state-passing operations: `write` takes the sink state and a byte buffer and
returns the new state together with `Except ε Nat` (the count of bytes
accepted, or an I/O error), and `flush` returns the new state together with
`Except ε Unit`. Bytes are natural numbers; `crlf = [13, 10]` is `b"\r\n"`.

The two source types `HeaderLines<W>` and `HeaderLine<W>` hold nothing but
(borrowed) sink access, so a live handle is represented by the sink state it
currently governs, and each method is a function on that state.
-/

/-- Model of a writable byte sink, the `W: Write` parameter of the source:
`σ` is the sink's internal state, `ε` its I/O error type. -/
structure Sink (σ ε : Type) where
  write : σ → List Nat → σ × Except ε Nat
  flush : σ → σ × Except ε Unit

/-- Byte sequence of the two-byte line terminator `b"\r\n"` (CRLF). -/
def crlf : List Nat := [13, 10]

/-- Success test on a sink result, as Rust `Result::is_ok`. -/
def isOkE {ε α : Type} : Except ε α → Bool
  | Except.ok _ => true
  | Except.error _ => false

variable {σ ε : Type}

namespace HeaderLine

/-- Embeds `impl Write for HeaderLine`, method
`fn write(&mut self, buf: &[u8]) -> io::Result<usize> { self.0.write(buf) }`:
the buffer is handed to the underlying sink and the sink's result returned. -/
def write (s : Sink σ ε) (st : σ) (buf : List Nat) : σ × Except ε Nat :=
  s.write st buf

/-- Embeds `fn flush(&mut self) -> io::Result<()> { self.0.flush() }`. -/
def flush (s : Sink σ ε) (st : σ) : σ × Except ε Unit :=
  s.flush st

/-- Embeds `impl Drop for HeaderLine`, body
`self.write(&b"\r\n"[..]).is_ok();` — a single `write` call of the terminator
whose returned `Result` (byte count or error) is discarded. -/
def drop (s : Sink σ ε) (st : σ) : σ :=
  (write s st crlf).1

end HeaderLine

namespace HeaderLines

/-- Embeds `HeaderLines::new(sink)`: wraps the sink, no sink operation. -/
def new (st : σ) : σ := st

/-- Embeds `HeaderLines::line`, body `HeaderLine(&mut self.0)`: it constructs
a `HeaderLine` borrowing the sink and contains no sink call, so the sink state
is passed through unchanged as the new line handle. -/
def line (st : σ) : σ := st

/-- Embeds `impl Drop for HeaderLines`, body `self.line();` followed by
`self.0.flush().is_ok();` — the temporary `HeaderLine` made by `line()` is
dropped immediately (writing a bare terminator, result discarded), then the
sink is flushed (result discarded). -/
def drop (s : Sink σ ε) (st : σ) : σ :=
  (s.flush (HeaderLine.drop s (line st))).1

end HeaderLines

/-- Caller protocol for one line scope: the caller issues the successive
`write` calls `chunks` into one `HeaderLine`, then the scope ends and the
line's `drop` runs. -/
def lineScope (s : Sink σ ε) (st : σ) (chunks : List (List Nat)) : σ :=
  HeaderLine.drop s (chunks.foldl (fun a c => (HeaderLine.write s a c).1) st)

/-- Caller protocol for one block scope: each element of `ls` is written with
one `write` call into a successive line scope obtained from
`HeaderLines.line`, then the block scope ends and `HeaderLines.drop` runs. -/
def blockScope (s : Sink σ ε) (st : σ) (ls : List (List Nat)) : σ :=
  HeaderLines.drop s
    (ls.foldl (fun a l => lineScope s (HeaderLines.line a) [l]) (HeaderLines.new st))

/-- Sink that accepts every byte (a `Vec<u8>` or a large-enough `Cursor`):
its state is the list of bytes received so far. -/
def bufSink : Sink (List Nat) Unit where
  write st buf := (st ++ buf, Except.ok buf.length)
  flush st := (st, Except.ok ())

/-- Fixed-capacity sink, as `std::io::Cursor<&mut [u8]>` over a buffer of
`cap` bytes: a write accepts only the bytes that fit and reports that
(possibly short) count. -/
def cursorSink (cap : Nat) : Sink (List Nat) Unit where
  write st buf :=
    (st ++ buf.take (min buf.length (cap - st.length)),
     Except.ok (min buf.length (cap - st.length)))
  flush st := (st, Except.ok ())

/-- Sink whose `write` and `flush` always fail; its state counts the write
attempts and the flush attempts made on it. -/
def brokenSink : Sink (Nat × Nat) Unit where
  write st _ := ((st.1 + 1, st.2), Except.error ())
  flush st := ((st.1, st.2 + 1), Except.error ())

/-- Number of positions of a byte list at which the CRLF pair occurs. -/
def countCRLF : List Nat → Nat
  | [] => 0
  | a :: rest => (if a = 13 ∧ rest.head? = some 10 then 1 else 0) + countCRLF rest

theorem foldl_write_bufSink (chunks : List (List Nat)) (st : List Nat) :
    chunks.foldl (fun a c => (HeaderLine.write bufSink a c).1) st = st ++ chunks.flatten := by
  induction chunks generalizing st with
  | nil => simp
  | cons c cs ih =>
    simp only [List.foldl_cons]
    rw [ih]
    simp [HeaderLine.write, bufSink, List.append_assoc]

theorem lineScope_bufSink (chunks : List (List Nat)) (st : List Nat) :
    lineScope bufSink st chunks = st ++ chunks.flatten ++ crlf := by
  unfold lineScope
  rw [foldl_write_bufSink]
  simp [HeaderLine.drop, HeaderLine.write, bufSink, List.append_assoc]

theorem foldl_lines_bufSink (ls : List (List Nat)) (st : List Nat) :
    ls.foldl (fun a l => lineScope bufSink (HeaderLines.line a) [l]) st
      = st ++ (ls.map (fun l => l ++ crlf)).flatten := by
  induction ls generalizing st with
  | nil => simp
  | cons l t ih =>
    simp only [List.foldl_cons]
    rw [ih, HeaderLines.line, lineScope_bufSink]
    simp [List.append_assoc]

theorem blockScope_bufSink (ls : List (List Nat)) (st : List Nat) :
    blockScope bufSink st ls = st ++ (ls.map (fun l => l ++ crlf)).flatten ++ crlf := by
  unfold blockScope
  rw [HeaderLines.new, foldl_lines_bufSink]
  simp [HeaderLines.drop, HeaderLines.line, HeaderLine.drop, HeaderLine.write, bufSink,
    List.append_assoc]

theorem countCRLF_append_crlf (l : List Nat) (h : countCRLF l = 0) :
    countCRLF (l ++ crlf) = 1 := by
  induction l with
  | nil => decide
  | cons a t ih =>
    by_cases hp : a = 13 ∧ t.head? = some 10
    · rw [countCRLF, if_pos hp] at h
      omega
    · rw [countCRLF, if_neg hp, Nat.zero_add] at h
      cases t with
      | nil => simp [countCRLF, crlf]
      | cons b t2 =>
        have hp2 : ¬(a = 13 ∧ ((b :: t2) ++ crlf).head? = some 10) := by
          simpa using hp
        rw [List.cons_append, countCRLF, if_neg hp2, ih h]

/-- Claim C1: for every sequence of CRLF-free lines written via successive
line scopes obtained from one `HeaderLines` block, ending the block scope
leaves exactly `s1 ++ CRLF ++ ... ++ sn ++ CRLF ++ CRLF` on the sink; in
particular an empty block emits exactly one CRLF. -/
theorem headerLines_block_output (ls : List (List Nat))
    (h : ∀ l ∈ ls, countCRLF l = 0) :
    blockScope bufSink [] ls = (ls.map (fun l => l ++ crlf)).flatten ++ crlf := by
  simpa using blockScope_bufSink ls []

/-- Witness for C1 at the concrete line list `[[72, 105], [66]]`. -/
theorem headerLines_block_output_witness :
    (∀ l ∈ ([[72, 105], [66]] : List (List Nat)), countCRLF l = 0)
      ∧ blockScope bufSink [] [[72, 105], [66]]
          = (([[72, 105], [66]] : List (List Nat)).map (fun l => l ++ crlf)).flatten ++ crlf :=
  ⟨by decide, headerLines_block_output [[72, 105], [66]] (by decide)⟩

/-- Claim C2: writing a CRLF-free byte sequence into a single `HeaderLine`
scope, possibly split across several `write` calls, and letting the scope end
leaves exactly those bytes followed by `0x0D 0x0A` on the sink. -/
theorem headerLine_scope_output (chunks : List (List Nat))
    (h : countCRLF chunks.flatten = 0) :
    lineScope bufSink [] chunks = chunks.flatten ++ crlf := by
  simpa using lineScope_bufSink chunks []

/-- Witness for C2 at the two-call split `[[65, 66], [32, 52, 50]]`. -/
theorem headerLine_scope_output_witness :
    countCRLF ([[65, 66], [32, 52, 50]] : List (List Nat)).flatten = 0
      ∧ lineScope bufSink [] [[65, 66], [32, 52, 50]]
          = ([[65, 66], [32, 52, 50]] : List (List Nat)).flatten ++ crlf :=
  ⟨by decide, headerLine_scope_output [[65, 66], [32, 52, 50]] (by decide)⟩

/-- Claim C3: when the sink's write or flush fails during implicit teardown,
no error reaches the caller: `HeaderLine.drop` and `HeaderLines.drop` return
the post-operation sink state normally (their result type carries no error
channel), the failures being discarded. -/
theorem teardown_swallows_failures {σ ε : Type} (s : Sink σ ε) (st : σ)
    (h : isOkE (s.write st crlf).2 = false
      ∨ isOkE (s.flush ((s.write st crlf).1)).2 = false) :
    HeaderLine.drop s st = (s.write st crlf).1
      ∧ HeaderLines.drop s st = (s.flush ((s.write st crlf).1)).1 :=
  ⟨rfl, rfl⟩

/-- Witness for C3 at `brokenSink`, where both teardown operations fail. -/
theorem teardown_swallows_failures_witness :
    HeaderLine.drop brokenSink (0, 0) = (brokenSink.write (0, 0) crlf).1
      ∧ HeaderLines.drop brokenSink (0, 0)
          = (brokenSink.flush ((brokenSink.write (0, 0) crlf).1)).1 :=
  teardown_swallows_failures brokenSink (0, 0) (Or.inl (by decide))

/-- Claim C4: `HeaderLine`'s `write` forwards the buffer unmodified to the
underlying sink's `write`, performs no other sink operation, and returns
exactly the sink's result (count or error); its `flush` likewise returns
exactly the result of the sink's `flush`, so caller-invoked failures
propagate unchanged. -/
theorem headerLine_write_forwards {σ ε : Type} (s : Sink σ ε) (st : σ) (buf : List Nat) :
    HeaderLine.write s st buf = s.write st buf ∧ HeaderLine.flush s st = s.flush st :=
  ⟨rfl, rfl⟩

/-- Claim C5: `HeaderLines` scope exit performs exactly one write of the bare
two-byte CRLF terminator (the blank line) followed by one flush of the sink,
the flush coming after the blank-line write. -/
theorem headerLines_drop_sequence {σ ε : Type} (s : Sink σ ε) (st : σ) :
    HeaderLines.drop s st = (s.flush ((s.write st crlf).1)).1 :=
  rfl

/-- Claim C6: bytes written by the caller directly to the sink after the
block scope has ended follow immediately after the terminating CRLF: the
system writes nothing to the sink after its scope-exit teardown, so no
separator appears. -/
theorem post_header_write (ls : List (List Nat)) (b : List Nat) :
    (bufSink.write (blockScope bufSink [] ls) b).1
      = (ls.map (fun l => l ++ crlf)).flatten ++ crlf ++ b := by
  rw [blockScope_bufSink]
  simp [bufSink, List.append_assoc]

/-- Claim C7: for every `HeaderLine` and every sequence of caller writes into
it (the quantifier ranges over all such sequences, so scopes cut short after
any number of writes are covered), scope exit appends the terminator after
all the caller's writes, and exactly one CRLF occurrence is added. -/
theorem headerLine_terminator_once (st : List Nat) (chunks : List (List Nat))
    (h : countCRLF (st ++ chunks.flatten) = 0) :
    lineScope bufSink st chunks = st ++ chunks.flatten ++ crlf
      ∧ countCRLF (lineScope bufSink st chunks) = 1 := by
  refine ⟨lineScope_bufSink chunks st, ?_⟩
  rw [lineScope_bufSink]
  exact countCRLF_append_crlf _ h

/-- Witness for C7 at the initial state `[]` and the one write `[72, 105]`. -/
theorem headerLine_terminator_once_witness :
    countCRLF ([] ++ ([[72, 105]] : List (List Nat)).flatten) = 0
      ∧ (lineScope bufSink [] [[72, 105]]
            = [] ++ ([[72, 105]] : List (List Nat)).flatten ++ crlf
          ∧ countCRLF (lineScope bufSink [] [[72, 105]]) = 1) :=
  ⟨by decide, headerLine_terminator_once [] [[72, 105]] (by decide)⟩

/-- Claim C8: on `HeaderLines` scope exit the sink's flush is attempted even
when the preceding blank-line terminator write failed: the final state is the
one obtained by applying the flush to the post-write state, so the two
teardown steps discard their failures independently. -/
theorem flush_after_failed_write {σ ε : Type} (s : Sink σ ε) (st : σ)
    (h : isOkE (s.write st crlf).2 = false) :
    HeaderLines.drop s st = (s.flush ((s.write st crlf).1)).1 :=
  rfl

/-- Witness for C8: on `brokenSink` the terminator write fails, yet the drop
leaves the state `(1, 1)` — one write attempt and one flush attempt. -/
theorem flush_after_failed_write_witness :
    HeaderLines.drop brokenSink (0, 0)
        = (brokenSink.flush ((brokenSink.write (0, 0) crlf).1)).1
      ∧ HeaderLines.drop brokenSink (0, 0) = (1, 1) :=
  ⟨flush_after_failed_write brokenSink (0, 0) (by decide), by decide⟩

/-- Claim C9: `HeaderLines::line` performs no sink operation at creation
time: the sink state after `line()` returns is exactly the state before, so
sink contents change only through caller writes and scope-exit terminators. -/
theorem line_writes_nothing {σ : Type} (st : σ) :
    HeaderLines.line st = st :=
  rfl

/-- Claim C10: the scope-exit terminator is one single sink write call whose
returned byte count is discarded with no retry of the remaining bytes, so a
sink that accepts only one more byte is left with a lone `0x0D` instead of
the full CRLF. -/
theorem terminator_single_write_no_retry :
    (∀ (σ ε : Type) (s : Sink σ ε) (st : σ), HeaderLine.drop s st = (s.write st crlf).1)
      ∧ HeaderLine.drop (cursorSink 1) [] = [13] := by
  refine ⟨fun σ ε s st => rfl, ?_⟩
  decide
